import Mathlib

/-!
Shallow embedding of the `validbr` crate (Brazilian CPF/CNPJ validator).

Conventions of the embedding:
* Rust `u8` / `u16` / `usize` values are modelled as `Nat`; wherever the
  machine arithmetic can wrap (the `u16` products and sums inside the
  checksum engine) an explicit `% 65536` is written.  `u8` inputs of the
  public API carry the type invariant `< 256`; all theorems below restrict
  further to decimal digits `≤ 9`, matching the claims.
* Rust fixed-size arrays `[u8; N]` are modelled as `List Nat` together with
  length hypotheses `l.length = N` in the theorems (the Rust type system
  enforces those lengths at every call site).
* Rust `&str` is modelled as `List Char`.  `str::len` is the byte length in
  Rust; it is only consulted when `ONLY_NUMBERS` (`^[0-9]+$`) matched, i.e.
  on pure-ASCII strings, where byte length and character count coincide, so
  `List.length` is a faithful model.
* The regex character class `\d` is modelled as `[0-9]` (exact on ASCII;
  the `regex` crate's Unicode `\d` only widens which strings *enter* the
  punctuated branch, and every extra digit is stripped again by
  `NOT_NUMBERS = [^0-9]+` before conversion, so observable outcomes on the
  claims' inputs are unchanged).
* `Regex::is_match` is unanchored: it succeeds iff the pattern matches at
  some position.  The two patterns are fixed-shape, so matching at a
  position is a prefix test (`matchesCpfAt` / `matchesCnpjAt`) and
  `is_match` is `hasMatch` over all suffixes.
* Fallible Rust paths return `Except`; the `panic!()` branch of the array
  composer is modelled as `Option.none`.
-/

deriving instance DecidableEq for Except

namespace Validbr

/-- Model of the regex character class `[0-9]` applied to one character
(code points 48..=57). -/
def isDigitCh (c : Char) : Bool := 48 ≤ c.toNat && c.toNat ≤ 57

/-- Model of Rust `char::to_digit(10)` composed with the lossless
`u32 → u8` conversion (macro `convert_to_u8!` in `macros.rs`): an ASCII
decimal digit maps to its value, anything else to `none`. -/
def charToDigit (c : Char) : Option Nat :=
  if 48 ≤ c.toNat && c.toNat ≤ 57 then some (c.toNat - 48) else none

/-- The character rendering a single decimal digit `d ≤ 9`
(`u8::to_string` on a one-digit value produces exactly this character). -/
def digitChar (d : Nat) : Char := Char.ofNat (48 + d)

/-- Model of `ONLY_NUMBERS = ^[0-9]+$`: non-empty and all characters in
`[0-9]`. -/
def onlyNumbers (s : List Char) : Bool := !s.isEmpty && s.all isDigitCh

/-- Unanchored `Regex::is_match`: the fixed-shape prefix test `p` succeeds
at some position of the string. -/
def hasMatch (p : List Char → Bool) : List Char → Bool
  | [] => p []
  | c :: cs => p (c :: cs) || hasMatch p cs

/-- Prefix test for `WELL_FORMATTED_CPF = \d{3}\.\d{3}\.\d{3}-\d{2}`. -/
def matchesCpfAt (s : List Char) : Bool :=
  match s with
  | a0 :: a1 :: a2 :: p0 :: b0 :: b1 :: b2 :: p1 :: c0 :: c1 :: c2 :: p2 :: v0 :: v1 :: _ =>
    isDigitCh a0 && isDigitCh a1 && isDigitCh a2 && (p0 = '.') &&
    isDigitCh b0 && isDigitCh b1 && isDigitCh b2 && (p1 = '.') &&
    isDigitCh c0 && isDigitCh c1 && isDigitCh c2 && (p2 = '-') &&
    isDigitCh v0 && isDigitCh v1
  | _ => false

/-- Prefix test for `WELL_FORMATTED_CNPJ = \d{2}\.\d{3}\.\d{3}/\d{4}-\d{2}`. -/
def matchesCnpjAt (s : List Char) : Bool :=
  match s with
  | a0 :: a1 :: p0 :: b0 :: b1 :: b2 :: p1 :: c0 :: c1 :: c2 :: p2 ::
      r0 :: r1 :: r2 :: r3 :: p3 :: v0 :: v1 :: _ =>
    isDigitCh a0 && isDigitCh a1 && (p0 = '.') &&
    isDigitCh b0 && isDigitCh b1 && isDigitCh b2 && (p1 = '.') &&
    isDigitCh c0 && isDigitCh c1 && isDigitCh c2 && (p2 = '/') &&
    isDigitCh r0 && isDigitCh r1 && isDigitCh r2 && isDigitCh r3 && (p3 = '-') &&
    isDigitCh v0 && isDigitCh v1
  | _ => false

/-- Model of `NOT_NUMBERS.replace_all(s, "")` with `NOT_NUMBERS = [^0-9]+`:
delete every character outside `[0-9]`. -/
def stripNonDigits (s : List Char) : List Char := s.filter isDigitCh

/-- `ArrayAppend::append` from `append.rs`: build the intermediate vector
by cloning the elements and chaining one extra element, then convert back
to a fixed-size array.  The `panic!()` on a length mismatch of the
conversion is modelled as `none`. -/
def arrayAppend (l : List Nat) (element : Nat) : Option (List Nat) :=
  let vec := l.map id ++ [element]
  if vec.length = l.length + 1 then some vec else none

/-- `ArrayAppend::append_array` from `append.rs`, with the `panic!()`
branch modelled as `none`. -/
def arrayAppendArray (l : List Nat) (array : List Nat) : Option (List Nat) :=
  let vec := l.map id ++ array.map id
  if vec.length = l.length + array.length then some vec else none

/-- `cpf::calculate_verifier_digit` (cpf.rs:222-236), for digit arrays of
any length `S` (= `l.length`): weighted sum with weight `(S+1) - pos` as a
`u16`, times ten, reduced mod 11, with pre-digit 10 mapped to 0.  Every
`u16` product and the running `u16` sum may wrap, hence the `% 65536`. -/
def cpfCalculateVerifierDigit (l : List Nat) : Nat :=
  let moduloNum := l.length + 1
  let digitsSum :=
    ((l.enum.map (fun p => p.2 * ((moduloNum - p.1) % 65536) % 65536)).sum) % 65536
  let preVerifier := digitsSum * 10 % 65536 % 11
  if preVerifier = 10 then 0 else preVerifier

/-- `cpf::calculate_verifier_digits` (cpf.rs:250-257): first digit over the
9 base digits, second over the base digits followed by the first digit
(built with the array composer, proven below to equal `++`). -/
def cpfCalculateVerifierDigits (digits : List Nat) : Nat × Nat :=
  let firstDigit := cpfCalculateVerifierDigit digits
  let digitsWithFirstVerifier := digits ++ [firstDigit]
  let secondDigit := cpfCalculateVerifierDigit digitsWithFirstVerifier
  (firstDigit, secondDigit)

/-- `cnpj::get_multiplier_values` (cnpj.rs:272-281): the cycle
`2,3,...,9,2,3,...` truncated to `amount` elements and reversed. -/
def getMultiplierValues (amount : Nat) : List Nat :=
  ((List.range amount).map (fun i => 2 + i % 8)).reverse

/-- `cnpj::calculate_verifier_digit` (cnpj.rs:239-255): weighted `u16` sum
against the multiplier table, reduced mod 11; pre-digit below 2 maps to 0,
otherwise to `11 -` pre-digit.  Indexing `mul_digits[pos]` is modelled with
`getD` (in every reachable call `pos < amount`). -/
def cnpjCalculateVerifierDigit (l : List Nat) : Nat :=
  let mulDigits := getMultiplierValues l.length
  let digitsSum :=
    ((l.enum.map (fun p => p.2 * mulDigits.getD p.1 0 % 65536)).sum) % 65536
  let preVerifierDigit := digitsSum % 11
  if preVerifierDigit < 2 then 0 else 11 - preVerifierDigit

/-- `cnpj::calculate_verifier_digits` (cnpj.rs:295-303): compose base and
branch digits (12 values), compute the first digit, append it (13 values)
and compute the second. -/
def cnpjCalculateVerifierDigits (digits : List Nat) (branchDigits : List Nat) :
    Nat × Nat :=
  let cnpjDigits := digits ++ branchDigits
  let firstDigit := cnpjCalculateVerifierDigit cnpjDigits
  let digitsWithFirstVerifier := cnpjDigits ++ [firstDigit]
  let secondDigit := cnpjCalculateVerifierDigit digitsWithFirstVerifier
  (firstDigit, secondDigit)

/-- The `Cpf` value type (lib.rs:167-172): 9 base digits and 2 verifier
digits. -/
structure Cpf where
  digits : List Nat
  verifier_digits : List Nat
deriving DecidableEq, Repr

/-- The `Cnpj` value type (lib.rs:211-218): 8 base digits, 4 branch digits
and 2 verifier digits. -/
structure Cnpj where
  digits : List Nat
  branch_digits : List Nat
  verifier_digits : List Nat
deriving DecidableEq, Repr

/-- `cpf::CpfCreationError` (cpf.rs:72-91). -/
inductive CpfCreationError where
  | InvalidCpfDigits
  | InvalidCpfStringFormat
  | CouldNotConvertCpfToDigits
  | ShortCpfString
  | DigitsOutOfBounds
deriving DecidableEq, Repr

/-- `cnpj::CnpjCreationError` (cnpj.rs:77-96). -/
inductive CnpjCreationError where
  | InvalidCnpjDigits
  | InvalidCnpjStringFormat
  | CouldNotConvertCnpjToDigits
  | ShortCnpjString
  | DigitsOutOfBounds
deriving DecidableEq, Repr

/-- `Cpf::new` (cpf.rs:119-138): range-check all supplied digits, then
compare the supplied verifier pair with the computed one.  The supplied
arrays are `[u8; 9]` and `[u8; 2]` in Rust; the array indexing
`verifier_digits[0]` / `[1]` is modelled with `getD`. -/
def Cpf.new (digits : List Nat) (verifier_digits : List Nat) :
    Except CpfCreationError Cpf :=
  let digitsIsValid := digits.all (fun i => i ≤ 9)
  let verifierDigitsIsValid := verifier_digits.all (fun i => i ≤ 9)
  if !digitsIsValid || !verifierDigitsIsValid then
    .error CpfCreationError.DigitsOutOfBounds
  else
    let fs := cpfCalculateVerifierDigits digits
    if fs.1 ≠ verifier_digits.getD 0 0 || fs.2 ≠ verifier_digits.getD 1 0 then
      .error CpfCreationError.InvalidCpfDigits
    else
      .ok { digits := digits, verifier_digits := verifier_digits }

/-- `Cnpj::new` (cnpj.rs:124-150). -/
def Cnpj.new (digits : List Nat) (branch_digits : List Nat)
    (verifier_digits : List Nat) : Except CnpjCreationError Cnpj :=
  let digitsIsValid := digits.all (fun i => i ≤ 9)
  let branchDigitsIsValid := branch_digits.all (fun i => i ≤ 9)
  let verifierDigitsIsValid := verifier_digits.all (fun i => i ≤ 9)
  if !digitsIsValid || !branchDigitsIsValid || !verifierDigitsIsValid then
    .error CnpjCreationError.DigitsOutOfBounds
  else
    let fs := cnpjCalculateVerifierDigits digits branch_digits
    if fs.1 ≠ verifier_digits.getD 0 0 || fs.2 ≠ verifier_digits.getD 1 0 then
      .error CnpjCreationError.InvalidCnpjDigits
    else
      .ok { digits := digits, branch_digits := branch_digits,
            verifier_digits := verifier_digits }

/-- `Cpf::parse_str` (cpf.rs:169-198).  The conversion of the taken /
skipped character iterators (`convert_to_u8!` + `collect::<Option<Vec>>`)
is `mapM charToDigit`; the `try_into` array conversions are the explicit
length tests.  On a `None` at either stage the Rust code returns
`CouldNotConvertCpfToDigits` (digits first, then validators). -/
def Cpf.parse_str (cpf : List Char) : Except CpfCreationError Cpf :=
  let isOnlyNumbers := onlyNumbers cpf
  if isOnlyNumbers && cpf.length ≠ 11 then
    .error CpfCreationError.ShortCpfString
  else if (onlyNumbers cpf && cpf.length = 11) || hasMatch matchesCpfAt cpf then
    let cpfOnlyWithNumbers := stripNonDigits cpf
    let digitsVec : Option (List Nat) :=
      (cpfOnlyWithNumbers.take 9).mapM charToDigit
    let validatorsVec : Option (List Nat) :=
      (cpfOnlyWithNumbers.drop 9).mapM charToDigit
    let digitsArray : Option (List Nat) :=
      digitsVec.bind (fun v => if v.length = 9 then some v else none)
    let validatorsArray : Option (List Nat) :=
      validatorsVec.bind (fun v => if v.length = 2 then some v else none)
    match digitsArray with
    | some digits =>
      match validatorsArray with
      | some validators => Cpf.new digits validators
      | none => .error CpfCreationError.CouldNotConvertCpfToDigits
    | none => .error CpfCreationError.CouldNotConvertCpfToDigits
  else
    .error CpfCreationError.InvalidCpfStringFormat

/-- `Cnpj::parse_str` (cnpj.rs:174-212). -/
def Cnpj.parse_str (cnpj : List Char) : Except CnpjCreationError Cnpj :=
  let isOnlyNumbers := onlyNumbers cnpj
  if isOnlyNumbers && cnpj.length ≠ 14 then
    .error CnpjCreationError.ShortCnpjString
  else if (onlyNumbers cnpj && cnpj.length = 14) || hasMatch matchesCnpjAt cnpj then
    let cnpjOnlyWithNumbers := stripNonDigits cnpj
    let digitsVec : Option (List Nat) :=
      (cnpjOnlyWithNumbers.take 8).mapM charToDigit
    let branchDigitsVec : Option (List Nat) :=
      ((cnpjOnlyWithNumbers.drop 8).take 4).mapM charToDigit
    let validatorsVec : Option (List Nat) :=
      (cnpjOnlyWithNumbers.drop 12).mapM charToDigit
    let digitsArray : Option (List Nat) :=
      digitsVec.bind (fun v => if v.length = 8 then some v else none)
    let branchDigitsArray : Option (List Nat) :=
      branchDigitsVec.bind (fun v => if v.length = 4 then some v else none)
    let validatorsArray : Option (List Nat) :=
      validatorsVec.bind (fun v => if v.length = 2 then some v else none)
    match digitsArray with
    | some digits =>
      match validatorsArray with
      | some validators =>
        match branchDigitsArray with
        | some branchDigits => Cnpj.new digits branchDigits validators
        | none => .error CnpjCreationError.CouldNotConvertCnpjToDigits
      | none => .error CnpjCreationError.CouldNotConvertCnpjToDigits
    | none => .error CnpjCreationError.CouldNotConvertCnpjToDigits
  else
    .error CnpjCreationError.InvalidCnpjStringFormat

/-- The `join_to_string!` macro (macros.rs:40-44): render each value in
decimal and concatenate without separator. -/
def joinToString (l : List Nat) : List Char := l.flatMap (Nat.toDigits 10)

/-- The `Display` impl for `Cpf` (cpf.rs:60-70): slices `[..3]`, `[3..6]`,
`[6..9]` and the verifier pair, joined as `f3.m3.e3-verifier`. -/
def Cpf.display (c : Cpf) : List Char :=
  joinToString (c.digits.take 3) ++ '.' ::
  joinToString ((c.digits.drop 3).take 3) ++ '.' ::
  joinToString ((c.digits.drop 6).take 3) ++ '-' ::
  joinToString c.verifier_digits

/-- The 11-character digits-only rendering of a `Cpf` (the second input
format accepted by `Cpf::parse_str`). -/
def Cpf.digitsOnly (c : Cpf) : List Char :=
  joinToString c.digits ++ joinToString c.verifier_digits

/-- The `Display` impl for `Cnpj` (cnpj.rs:64-75): slices `[..2]`,
`[2..5]`, `[5..8]`, the branch and the verifier pair, joined as
`f3.m3.e3/branch-verifier`. -/
def Cnpj.display (c : Cnpj) : List Char :=
  joinToString (c.digits.take 2) ++ '.' ::
  joinToString ((c.digits.drop 2).take 3) ++ '.' ::
  joinToString ((c.digits.drop 5).take 3) ++ '/' ::
  joinToString c.branch_digits ++ '-' ::
  joinToString c.verifier_digits

/-- The 14-character digits-only rendering of a `Cnpj`. -/
def Cnpj.digitsOnly (c : Cnpj) : List Char :=
  joinToString c.digits ++ joinToString c.branch_digits ++
  joinToString c.verifier_digits

/-- `cnpj::Branch` (cnpj.rs:346). -/
structure Branch where
  digits : List Nat
deriving DecidableEq, Repr

/-- `cnpj::InvalidBranchNumber` (cnpj.rs:357), a unit struct. -/
structure InvalidBranchNumber where
deriving DecidableEq, Repr

/-- `Branch::first` (cnpj.rs:366-368). -/
def Branch.first : Branch := { digits := [0, 0, 0, 1] }

/-- `Branch::new` (cnpj.rs:374-382): reject any digit above 9. -/
def Branch.new (branch_digits : List Nat) : Except InvalidBranchNumber Branch :=
  if branch_digits.any (fun b => b > 9) then
    .error InvalidBranchNumber.mk
  else
    .ok { digits := branch_digits }

/-- `Branch::from_u8` (cnpj.rs:387-398): reject numbers above 9999, then
split into the four decimal digits exactly as the source does. -/
def Branch.from_u8 (branch_number : Nat) : Except InvalidBranchNumber Branch :=
  if branch_number > 9999 then
    .error InvalidBranchNumber.mk
  else
    let firstDigit := branch_number / 1000
    let secondDigit := branch_number % 1000 / 100
    let thirdDigit := branch_number % 1000 % 100 / 10
    let fourthDigit := branch_number % 1000 % 100 % 10
    Branch.new [firstDigit, secondDigit, thirdDigit, fourthDigit]

/-- Reference (spec-side) CPF check digit, written after the spec's words
with exact integer arithmetic: "the sum over positions i of
digit[i] * ((S+1) - i), reduced mod 11 after multiplying by 10, mapped to 0
when the pre-digit equals 10".  Compared against the machine-arithmetic
`cpfCalculateVerifierDigit` in claim C2. -/
def cpfVerifierDigitSpec (l : List Nat) : Nat :=
  let s := (l.enum.map (fun p => p.2 * (l.length + 1 - p.1))).sum
  let pre := s * 10 % 11
  if pre = 10 then 0 else pre

/-- Reference (spec-side) CNPJ check digit with exact integer arithmetic:
"returns 0 when the weighted sum mod 11 is less than 2 and 11 minus that
remainder otherwise", the weights being the multiplier table.  Compared
against the machine-arithmetic `cnpjCalculateVerifierDigit` in claim C3. -/
def cnpjVerifierDigitSpec (l : List Nat) : Nat :=
  let s := (l.enum.map (fun p => p.2 * (getMultiplierValues l.length).getD p.1 0)).sum
  if s % 11 < 2 then 0 else 11 - s % 11

/-- The exact punctuated CPF shape `NNN.NNN.NNN-NN`: the whole string (not
merely some substring) is 14 characters matching the pattern. -/
def exactCpfShape (s : List Char) : Bool :=
  s.length = 14 && matchesCpfAt s

/-- The exact punctuated CNPJ shape `NN.NNN.NNN/NNNN-NN`: the whole string
is 18 characters matching the pattern. -/
def exactCnpjShape (s : List Char) : Bool :=
  s.length = 18 && matchesCnpjAt s

lemma isDigitCh_digitChar {d : Nat} (h : d ≤ 9) : isDigitCh (digitChar d) = true := by
  interval_cases d <;> decide

lemma charToDigit_digitChar {d : Nat} (h : d ≤ 9) : charToDigit (digitChar d) = some d := by
  interval_cases d <;> decide

lemma toDigits_of_le_nine {d : Nat} (h : d ≤ 9) : Nat.toDigits 10 d = [digitChar d] := by
  interval_cases d <;> decide

lemma toNat_sub_le_nine {c : Char} (h : isDigitCh c = true) : c.toNat - 48 ≤ 9 := by
  simp only [isDigitCh, Bool.and_eq_true, decide_eq_true_eq] at h
  omega

lemma charToDigit_of_isDigit {c : Char} (h : isDigitCh c = true) :
    charToDigit c = some (c.toNat - 48) := by
  simp only [isDigitCh, Bool.and_eq_true, decide_eq_true_eq] at h
  simp [charToDigit, h.1, h.2]

lemma mapM_charToDigit_eq_some {cs : List Char} (hall : ∀ c ∈ cs, isDigitCh c = true) :
    cs.mapM charToDigit = some (cs.map (fun c => c.toNat - 48)) := by
  induction cs with
  | nil => rfl
  | cons c0 rest ih =>
    rw [List.mapM_cons, charToDigit_of_isDigit (hall c0 (List.mem_cons_self c0 rest)),
      ih fun c1 hc1 => hall c1 (List.mem_cons_of_mem c0 hc1)]
    rfl

lemma snd_mem_of_mem_enum {l : List Nat} {p : Nat × Nat} (h : p ∈ l.enum) : p.2 ∈ l :=
  List.getElem?_mem (List.mem_enum_iff_getElem?.mp h)

lemma sum_map_enum_le {l : List Nat} {f : Nat × Nat → Nat} {B : Nat}
    (h : ∀ p ∈ l.enum, f p ≤ B) : (l.enum.map f).sum ≤ l.length * B := by
  have hs := List.sum_le_card_nsmul (l.enum.map f) B ?_
  · simpa [List.enum_length, smul_eq_mul] using hs
  · intro x hx
    obtain ⟨p, hp, rfl⟩ := List.mem_map.mp hx
    exact h p hp

lemma mem_getMultiplierValues_le {a x : Nat} (h : x ∈ getMultiplierValues a) : x ≤ 9 := by
  simp only [getMultiplierValues, List.mem_reverse, List.mem_map, List.mem_range] at h
  obtain ⟨j, _, rfl⟩ := h
  omega

lemma getMultiplierValues_getD_le (a i : Nat) : (getMultiplierValues a).getD i 0 ≤ 9 := by
  rw [List.getD_eq_getElem?_getD]
  rcases h : (getMultiplierValues a)[i]? with _ | x
  · simp
  · simpa using mem_getMultiplierValues_le (List.getElem?_mem h)

lemma exists_len_two (xs : List Nat) (hxs : xs.length = 2) :
    ∃ q0 q1, xs = [q0, q1] := by
  rcases xs with _ | ⟨q0, _ | ⟨q1, _ | ⟨q2, tail⟩⟩⟩ <;> simp_all

lemma exists_len_four (xs : List Nat) (hxs : xs.length = 4) :
    ∃ q0 q1 q2 q3, xs = [q0, q1, q2, q3] := by
  rcases xs with _ | ⟨q0, _ | ⟨q1, _ | ⟨q2, _ | ⟨q3, _ | ⟨q4, tail⟩⟩⟩⟩⟩ <;> simp_all

lemma exists_len_eight (xs : List Nat) (hxs : xs.length = 8) :
    ∃ q0 q1 q2 q3 q4 q5 q6 q7, xs = [q0, q1, q2, q3, q4, q5, q6, q7] := by
  rcases xs with _ | ⟨q0, _ | ⟨q1, _ | ⟨q2, _ | ⟨q3, _ | ⟨q4, _ | ⟨q5, _ | ⟨q6, _ |
    ⟨q7, _ | ⟨q8, tail⟩⟩⟩⟩⟩⟩⟩⟩⟩ <;> simp_all

lemma exists_len_nine (xs : List Nat) (hxs : xs.length = 9) :
    ∃ q0 q1 q2 q3 q4 q5 q6 q7 q8, xs = [q0, q1, q2, q3, q4, q5, q6, q7, q8] := by
  rcases xs with _ | ⟨q0, _ | ⟨q1, _ | ⟨q2, _ | ⟨q3, _ | ⟨q4, _ | ⟨q5, _ | ⟨q6, _ |
    ⟨q7, _ | ⟨q8, _ | ⟨q9, tail⟩⟩⟩⟩⟩⟩⟩⟩⟩⟩ <;> simp_all

lemma cpfDigit_machine_eq_spec {l : List Nat} (hlen : l.length ≤ 10)
    (hd : ∀ x ∈ l, x ≤ 9) : cpfCalculateVerifierDigit l = cpfVerifierDigitSpec l := by
  have hcong : l.enum.map (fun p => p.2 * ((l.length + 1 - p.1) % 65536) % 65536)
      = l.enum.map (fun p => p.2 * (l.length + 1 - p.1)) := by
    apply List.map_congr_left
    intro p hp
    have h2 : p.2 ≤ 9 := hd _ (snd_mem_of_mem_enum hp)
    have hw : (l.length + 1 - p.1) % 65536 = l.length + 1 - p.1 :=
      Nat.mod_eq_of_lt (by omega)
    rw [hw, Nat.mod_eq_of_lt]
    have : p.2 * (l.length + 1 - p.1) ≤ 9 * 11 :=
      Nat.mul_le_mul h2 (by omega)
    omega
  have hsum : (l.enum.map (fun p => p.2 * (l.length + 1 - p.1))).sum ≤ l.length * 99 := by
    apply sum_map_enum_le
    intro p hp
    have h2 : p.2 ≤ 9 := hd _ (snd_mem_of_mem_enum hp)
    have : p.2 * (l.length + 1 - p.1) ≤ 9 * 11 := Nat.mul_le_mul h2 (by omega)
    omega
  simp only [cpfCalculateVerifierDigit, cpfVerifierDigitSpec, hcong]
  set S := (l.enum.map (fun p => p.2 * (l.length + 1 - p.1))).sum with hS
  have h1 : S % 65536 = S := Nat.mod_eq_of_lt (by omega)
  rw [h1]
  have h2 : S * 10 % 65536 = S * 10 := Nat.mod_eq_of_lt (by omega)
  rw [h2]

lemma cnpjDigit_machine_eq_spec {l : List Nat} (hlen : l.length ≤ 809)
    (hd : ∀ x ∈ l, x ≤ 9) : cnpjCalculateVerifierDigit l = cnpjVerifierDigitSpec l := by
  have hcong : l.enum.map
        (fun p => p.2 * (getMultiplierValues l.length).getD p.1 0 % 65536)
      = l.enum.map (fun p => p.2 * (getMultiplierValues l.length).getD p.1 0) := by
    apply List.map_congr_left
    intro p hp
    have h2 : p.2 ≤ 9 := hd _ (snd_mem_of_mem_enum hp)
    have hw : (getMultiplierValues l.length).getD p.1 0 ≤ 9 :=
      getMultiplierValues_getD_le _ _
    have : p.2 * (getMultiplierValues l.length).getD p.1 0 ≤ 9 * 9 :=
      Nat.mul_le_mul h2 hw
    exact Nat.mod_eq_of_lt (by omega)
  have hsum : (l.enum.map (fun p => p.2 * (getMultiplierValues l.length).getD p.1 0)).sum
      ≤ l.length * 81 := by
    apply sum_map_enum_le
    intro p hp
    have h2 : p.2 ≤ 9 := hd _ (snd_mem_of_mem_enum hp)
    have hw : (getMultiplierValues l.length).getD p.1 0 ≤ 9 :=
      getMultiplierValues_getD_le _ _
    exact le_trans (Nat.mul_le_mul h2 hw) (by norm_num)
  simp only [cnpjCalculateVerifierDigit, cnpjVerifierDigitSpec, hcong]
  set S := (l.enum.map (fun p => p.2 * (getMultiplierValues l.length).getD p.1 0)).sum
    with hS
  have h1 : S % 65536 = S := Nat.mod_eq_of_lt (by omega)
  rw [h1]

lemma cpfNew_eq (d : List Nat) (v0 v1 : Nat) :
    Cpf.new d [v0, v1] =
      if (∀ x ∈ d, x ≤ 9) ∧ v0 ≤ 9 ∧ v1 ≤ 9 then
        if cpfCalculateVerifierDigits d = (v0, v1) then
          .ok { digits := d, verifier_digits := [v0, v1] }
        else .error CpfCreationError.InvalidCpfDigits
      else .error CpfCreationError.DigitsOutOfBounds := by
  simp only [Cpf.new, List.getD_cons_zero, List.getD_cons_succ]
  by_cases hb : (∀ x ∈ d, x ≤ 9) ∧ v0 ≤ 9 ∧ v1 ≤ 9
  · have h1 : d.all (fun i => i ≤ 9) = true := by
      simp only [List.all_eq_true, decide_eq_true_eq]
      exact hb.1
    have h2 : ([v0, v1].all (fun i => i ≤ 9)) = true := by
      simp [hb.2.1, hb.2.2]
    rw [if_pos hb]
    simp only [h1, h2, Bool.not_true, Bool.or_self, Bool.false_or, if_neg (by simp : ¬ (false = true))]
    by_cases hv : cpfCalculateVerifierDigits d = (v0, v1)
    · rw [if_pos hv]
      have hv1 : (cpfCalculateVerifierDigits d).1 = v0 := by rw [hv]
      have hv2 : (cpfCalculateVerifierDigits d).2 = v1 := by rw [hv]
      simp [hv1, hv2]
    · rw [if_neg hv]
      have : (cpfCalculateVerifierDigits d).1 ≠ v0 ∨ (cpfCalculateVerifierDigits d).2 ≠ v1 := by
        by_contra hc
        push_neg at hc
        exact hv (Prod.ext hc.1 hc.2)
      rcases this with h | h <;> simp [h]
  · rw [if_neg hb]
    have : ¬ (d.all (fun i => i ≤ 9) = true ∧ ([v0, v1].all (fun i => i ≤ 9)) = true) := by
      intro hc
      apply hb
      refine ⟨?_, ?_, ?_⟩
      · intro x hx
        have := List.all_eq_true.mp hc.1 x hx
        simpa using this
      · have := List.all_eq_true.mp hc.2 v0 (by simp)
        simpa using this
      · have := List.all_eq_true.mp hc.2 v1 (by simp)
        simpa using this
    rcases Decidable.not_and_iff_or_not.mp this with h | h
    · rw [Bool.not_eq_true] at h
      simp [h]
    · rw [Bool.not_eq_true] at h
      simp [h]

lemma cnpjNew_eq (d b : List Nat) (v0 v1 : Nat) :
    Cnpj.new d b [v0, v1] =
      if (∀ x ∈ d, x ≤ 9) ∧ (∀ x ∈ b, x ≤ 9) ∧ v0 ≤ 9 ∧ v1 ≤ 9 then
        if cnpjCalculateVerifierDigits d b = (v0, v1) then
          .ok { digits := d, branch_digits := b, verifier_digits := [v0, v1] }
        else .error CnpjCreationError.InvalidCnpjDigits
      else .error CnpjCreationError.DigitsOutOfBounds := by
  simp only [Cnpj.new, List.getD_cons_zero, List.getD_cons_succ]
  by_cases hb : (∀ x ∈ d, x ≤ 9) ∧ (∀ x ∈ b, x ≤ 9) ∧ v0 ≤ 9 ∧ v1 ≤ 9
  · have h1 : d.all (fun i => i ≤ 9) = true := by
      simp only [List.all_eq_true, decide_eq_true_eq]
      exact hb.1
    have h1b : b.all (fun i => i ≤ 9) = true := by
      simp only [List.all_eq_true, decide_eq_true_eq]
      exact hb.2.1
    have h2 : ([v0, v1].all (fun i => i ≤ 9)) = true := by
      simp [hb.2.2.1, hb.2.2.2]
    rw [if_pos hb]
    simp only [h1, h1b, h2, Bool.not_true, Bool.or_self, Bool.false_or,
      if_neg (by simp : ¬ (false = true))]
    by_cases hv : cnpjCalculateVerifierDigits d b = (v0, v1)
    · rw [if_pos hv]
      have hv1 : (cnpjCalculateVerifierDigits d b).1 = v0 := by rw [hv]
      have hv2 : (cnpjCalculateVerifierDigits d b).2 = v1 := by rw [hv]
      simp [hv1, hv2]
    · rw [if_neg hv]
      have : (cnpjCalculateVerifierDigits d b).1 ≠ v0 ∨
          (cnpjCalculateVerifierDigits d b).2 ≠ v1 := by
        by_contra hc
        push_neg at hc
        exact hv (Prod.ext hc.1 hc.2)
      rcases this with h | h <;> simp [h]
  · rw [if_neg hb]
    have : ¬ (d.all (fun i => i ≤ 9) = true ∧ b.all (fun i => i ≤ 9) = true ∧
        ([v0, v1].all (fun i => i ≤ 9)) = true) := by
      intro hc
      apply hb
      refine ⟨?_, ?_, ?_, ?_⟩
      · intro x hx
        simpa using List.all_eq_true.mp hc.1 x hx
      · intro x hx
        simpa using List.all_eq_true.mp hc.2.1 x hx
      · simpa using List.all_eq_true.mp hc.2.2 v0 (by simp)
      · simpa using List.all_eq_true.mp hc.2.2 v1 (by simp)
    rcases Decidable.not_and_iff_or_not.mp this with h | h
    · rw [Bool.not_eq_true] at h
      simp [h]
    · rcases Decidable.not_and_iff_or_not.mp h with h2 | h2
      · rw [Bool.not_eq_true] at h2
        simp [h2]
      · rw [Bool.not_eq_true] at h2
        simp [h2]

/-- C1: the validated constructors `Cpf::new` and `Cnpj::new` return
`DigitsOutOfBounds` when any supplied value (base, branch or verifier)
exceeds 9; otherwise they return Ok exactly when the supplied verifier
digits equal the pair computed by `calculate_verifier_digits` on the
supplied base (and branch) digits, storing the supplied arrays unchanged,
and return `InvalidCpfDigits` / `InvalidCnpjDigits` on mismatch. -/
theorem c1_validated_constructors (dc dn bn : List Nat) (v0 v1 w0 w1 : Nat)
    (hdc : dc.length = 9) (hdn : dn.length = 8) (hbn : bn.length = 4) :
    (¬ ((∀ x ∈ dc, x ≤ 9) ∧ v0 ≤ 9 ∧ v1 ≤ 9) →
      Cpf.new dc [v0, v1] = .error CpfCreationError.DigitsOutOfBounds) ∧
    ((∀ x ∈ dc, x ≤ 9) → v0 ≤ 9 → v1 ≤ 9 →
      (Cpf.new dc [v0, v1] = .ok { digits := dc, verifier_digits := [v0, v1] } ↔
        cpfCalculateVerifierDigits dc = (v0, v1)) ∧
      (cpfCalculateVerifierDigits dc ≠ (v0, v1) →
        Cpf.new dc [v0, v1] = .error CpfCreationError.InvalidCpfDigits) ∧
      (∀ x, Cpf.new dc [v0, v1] = .ok x →
        x = { digits := dc, verifier_digits := [v0, v1] })) ∧
    (¬ ((∀ x ∈ dn, x ≤ 9) ∧ (∀ x ∈ bn, x ≤ 9) ∧ w0 ≤ 9 ∧ w1 ≤ 9) →
      Cnpj.new dn bn [w0, w1] = .error CnpjCreationError.DigitsOutOfBounds) ∧
    ((∀ x ∈ dn, x ≤ 9) → (∀ x ∈ bn, x ≤ 9) → w0 ≤ 9 → w1 ≤ 9 →
      (Cnpj.new dn bn [w0, w1] =
          .ok { digits := dn, branch_digits := bn, verifier_digits := [w0, w1] } ↔
        cnpjCalculateVerifierDigits dn bn = (w0, w1)) ∧
      (cnpjCalculateVerifierDigits dn bn ≠ (w0, w1) →
        Cnpj.new dn bn [w0, w1] = .error CnpjCreationError.InvalidCnpjDigits) ∧
      (∀ x, Cnpj.new dn bn [w0, w1] = .ok x →
        x = { digits := dn, branch_digits := bn, verifier_digits := [w0, w1] })) := by
  refine ⟨fun h => ?_, fun h1 h2 h3 => ⟨?_, fun hne => ?_, fun x hx => ?_⟩,
    fun h => ?_, fun h1 h1b h2 h3 => ⟨?_, fun hne => ?_, fun x hx => ?_⟩⟩
  · rw [cpfNew_eq, if_neg h]
  · rw [cpfNew_eq, if_pos ⟨h1, h2, h3⟩]
    constructor
    · intro hok
      by_contra hne
      rw [if_neg hne] at hok
      exact absurd hok (by simp)
    · intro hv
      rw [if_pos hv]
  · rw [cpfNew_eq, if_pos ⟨h1, h2, h3⟩, if_neg hne]
  · rw [cpfNew_eq, if_pos ⟨h1, h2, h3⟩] at hx
    by_cases hv : cpfCalculateVerifierDigits dc = (v0, v1)
    · rw [if_pos hv] at hx
      exact (Except.ok.inj hx).symm
    · rw [if_neg hv] at hx
      exact absurd hx (by simp)
  · rw [cnpjNew_eq, if_neg h]
  · rw [cnpjNew_eq, if_pos ⟨h1, h1b, h2, h3⟩]
    constructor
    · intro hok
      by_contra hne
      rw [if_neg hne] at hok
      exact absurd hok (by simp)
    · intro hv
      rw [if_pos hv]
  · rw [cnpjNew_eq, if_pos ⟨h1, h1b, h2, h3⟩, if_neg hne]
  · rw [cnpjNew_eq, if_pos ⟨h1, h1b, h2, h3⟩] at hx
    by_cases hv : cnpjCalculateVerifierDigits dn bn = (w0, w1)
    · rw [if_pos hv] at hx
      exact (Except.ok.inj hx).symm
    · rw [if_neg hv] at hx
      exact absurd hx (by simp)

/-- C1 witness: the two doctest identifiers, a valid CPF
(310.126.650-54) and a valid CNPJ (53.871.143/0001-35). -/
theorem c1_validated_constructors_witness :
    (([3,1,0,1,2,6,6,5,0] : List Nat).length = 9 ∧
     ([5,3,8,7,1,1,4,3] : List Nat).length = 8 ∧
     ([0,0,0,1] : List Nat).length = 4) ∧
    Cpf.new [3,1,0,1,2,6,6,5,0] [5, 4] =
      .ok { digits := [3,1,0,1,2,6,6,5,0], verifier_digits := [5, 4] } ∧
    Cnpj.new [5,3,8,7,1,1,4,3] [0,0,0,1] [3, 5] =
      .ok { digits := [5,3,8,7,1,1,4,3], branch_digits := [0,0,0,1],
            verifier_digits := [3, 5] } :=
  ⟨⟨rfl, rfl, rfl⟩,
   ((c1_validated_constructors [3,1,0,1,2,6,6,5,0] [5,3,8,7,1,1,4,3] [0,0,0,1]
      5 4 3 5 rfl rfl rfl).2.1 (by decide) (by decide) (by decide)).1.mpr (by decide),
   ((c1_validated_constructors [3,1,0,1,2,6,6,5,0] [5,3,8,7,1,1,4,3] [0,0,0,1]
      5 4 3 5 rfl rfl rfl).2.2.2 (by decide) (by decide) (by decide)
      (by decide)).1.mpr (by decide)⟩

/-- C2: for 9- and 10-element digit arrays with entries in 0..=9
(the lengths used for the first and second CPF check digit), the u16
machine computation in `cpf::calculate_verifier_digit` never wraps and
equals the exact reference value, and `calculate_verifier_digits` computes
the first digit over the base digits and the second over the base digits
followed by the first digit. -/
theorem c2_cpf_checksum_engine (l d : List Nat)
    (hlen : l.length = 9 ∨ l.length = 10) (hd : ∀ x ∈ l, x ≤ 9) :
    cpfCalculateVerifierDigit l = cpfVerifierDigitSpec l ∧
    cpfCalculateVerifierDigits d =
      (cpfCalculateVerifierDigit d,
       cpfCalculateVerifierDigit (d ++ [cpfCalculateVerifierDigit d])) :=
  ⟨cpfDigit_machine_eq_spec (by rcases hlen with h | h <;> omega) hd, rfl⟩

/-- C2 witness: the doctest base [1,2,3,4,5,6,7,8,9]. -/
theorem c2_cpf_checksum_engine_witness :
    (([1,2,3,4,5,6,7,8,9] : List Nat).length = 9 ∧
      ∀ x ∈ ([1,2,3,4,5,6,7,8,9] : List Nat), x ≤ 9) ∧
    cpfCalculateVerifierDigit [1,2,3,4,5,6,7,8,9] =
      cpfVerifierDigitSpec [1,2,3,4,5,6,7,8,9] :=
  ⟨⟨rfl, by decide⟩,
   (c2_cpf_checksum_engine [1,2,3,4,5,6,7,8,9] [] (Or.inl rfl) (by decide)).1⟩

/-- C3: the CNPJ multiplier tables for 12 and 13 digits are exactly the
stated lists, the final weight is 2 for every positive amount, the machine
computation of `cnpj::calculate_verifier_digit` equals the exact reference
rule (0 when the weighted sum mod 11 is below 2, else 11 minus the
remainder) on every digit array with entries in 0..=9 short enough for the
u16 sum not to wrap (length ≤ 809; the code uses lengths 12 and 13), and
`calculate_verifier_digits` computes the first digit over the 12
base+branch digits and the second over those plus the first. -/
theorem c3_cnpj_checksum_engine (a : Nat) (l d b : List Nat) (ha : 0 < a)
    (hlen : l.length ≤ 809) (hd : ∀ x ∈ l, x ≤ 9) :
    getMultiplierValues 12 = [5,4,3,2,9,8,7,6,5,4,3,2] ∧
    getMultiplierValues 13 = [6,5,4,3,2,9,8,7,6,5,4,3,2] ∧
    (getMultiplierValues a).getLast? = some 2 ∧
    cnpjCalculateVerifierDigit l = cnpjVerifierDigitSpec l ∧
    cnpjCalculateVerifierDigits d b =
      (cnpjCalculateVerifierDigit (d ++ b),
       cnpjCalculateVerifierDigit ((d ++ b) ++ [cnpjCalculateVerifierDigit (d ++ b)])) := by
  refine ⟨by decide, by decide, ?_, cnpjDigit_machine_eq_spec hlen hd, rfl⟩
  obtain ⟨k, rfl⟩ := Nat.exists_eq_succ_of_ne_zero (Nat.pos_iff_ne_zero.mp ha)
  simp [getMultiplierValues, List.getLast?_reverse, List.range_succ_eq_map]

/-- C3 witness: the 12-digit base+branch sequence of the doctest CNPJ. -/
theorem c3_cnpj_checksum_engine_witness :
    (0 < 12 ∧ ([5,3,8,7,1,1,4,3,0,0,0,1] : List Nat).length ≤ 809 ∧
      ∀ x ∈ ([5,3,8,7,1,1,4,3,0,0,0,1] : List Nat), x ≤ 9) ∧
    (getMultiplierValues 12).getLast? = some 2 ∧
    cnpjCalculateVerifierDigit [5,3,8,7,1,1,4,3,0,0,0,1] =
      cnpjVerifierDigitSpec [5,3,8,7,1,1,4,3,0,0,0,1] :=
  ⟨⟨by decide, by decide, by decide⟩,
   (c3_cnpj_checksum_engine 12 [5,3,8,7,1,1,4,3,0,0,0,1] [] [] (by decide)
     (by decide) (by decide)).2.2.1,
   (c3_cnpj_checksum_engine 12 [5,3,8,7,1,1,4,3,0,0,0,1] [] [] (by decide)
     (by decide) (by decide)).2.2.2.1⟩

/-- C4 counterexample: `Cpf::parse_str("111.111.111-11")` does not return
`InvalidCpfDigits` — the check digits computed for the base
[1,1,1,1,1,1,1,1,1] are exactly (1, 1), not a differing pair. -/
theorem c4_counterexample :
    Cpf.parse_str "111.111.111-11".data ≠
      .error CpfCreationError.InvalidCpfDigits ∧
    cpfCalculateVerifierDigits [1,1,1,1,1,1,1,1,1] = (1, 1) := by decide

/-- C4 amended: `Cpf::parse_str("111.111.111-11")` returns Ok storing the
digits [1,...,1] and verifier digits [1,1], because the mod-11 checksum of
nine ones yields exactly the pair (1, 1) (the library applies no
repeated-digit blacklist). -/
theorem c4_parse_repeated_ones :
    Cpf.parse_str "111.111.111-11".data =
      .ok { digits := [1,1,1,1,1,1,1,1,1], verifier_digits := [1,1] } ∧
    cpfCalculateVerifierDigits [1,1,1,1,1,1,1,1,1] = (1, 1) := by decide

/-- C8: `Branch::from_u8` accepts exactly 0..=9999, producing the
zero-padded 4-digit decimal representation (each digit ≤ 9 and the digits
recompose to the input), rejects every larger number with
`InvalidBranchNumber`, and `Branch::first` is the constant [0,0,0,1]. -/
theorem c8_branch_from_number (n : Nat) :
    (n ≤ 9999 →
      ∃ d0 d1 d2 d3, Branch.from_u8 n = .ok { digits := [d0, d1, d2, d3] } ∧
        d0 * 1000 + d1 * 100 + d2 * 10 + d3 = n ∧
        d0 ≤ 9 ∧ d1 ≤ 9 ∧ d2 ≤ 9 ∧ d3 ≤ 9) ∧
    (9999 < n → Branch.from_u8 n = .error InvalidBranchNumber.mk) ∧
    Branch.first = { digits := [0, 0, 0, 1] } := by
  refine ⟨fun h => ?_, fun h => ?_, rfl⟩
  · refine ⟨n / 1000, n % 1000 / 100, n % 1000 % 100 / 10, n % 1000 % 100 % 10,
      ?_, by omega, by omega, by omega, by omega, by omega⟩
    simp only [Branch.from_u8, Branch.new]
    rw [if_neg (by omega), if_neg]
    simp only [List.any_cons, List.any_nil, Bool.or_false, Bool.or_eq_true,
      decide_eq_true_eq, not_or]
    omega
  · simp only [Branch.from_u8]
    rw [if_pos h]

/-- C8 witness: branch number 12 maps to [0,0,1,2]; 10000 is rejected. -/
theorem c8_branch_from_number_witness :
    ((12 : Nat) ≤ 9999 ∧
      ∃ d0 d1 d2 d3, Branch.from_u8 12 = .ok { digits := [d0, d1, d2, d3] } ∧
        d0 * 1000 + d1 * 100 + d2 * 10 + d3 = 12 ∧
        d0 ≤ 9 ∧ d1 ≤ 9 ∧ d2 ≤ 9 ∧ d3 ≤ 9) ∧
    ((9999 : Nat) < 10000 ∧
      Branch.from_u8 10000 = .error InvalidBranchNumber.mk) :=
  ⟨⟨by decide, (c8_branch_from_number 12).1 (by decide)⟩,
   ⟨by decide, (c8_branch_from_number 10000).2.1 (by decide)⟩⟩

/-- C9: the array composer never reaches its panic branch — the
intermediate vector always has exactly `S+1` (resp. `S+N`) elements — and
the result is the order-preserving concatenation: the first `S` positions
hold the original elements in order and the remaining positions hold the
appended element(s) in order, with no loss or duplication. -/
theorem c9_array_append_never_panics (l m : List Nat) (x : Nat) :
    arrayAppend l x = some (l ++ [x]) ∧
    arrayAppendArray l m = some (l ++ m) ∧
    (l ++ [x]).length = l.length + 1 ∧
    (l ++ m).length = l.length + m.length ∧
    (l ++ [x]).take l.length = l ∧ (l ++ [x]).drop l.length = [x] ∧
    (l ++ m).take l.length = l ∧ (l ++ m).drop l.length = m :=
  ⟨by simp [arrayAppend], by simp [arrayAppendArray], by simp, by simp,
   List.take_left l [x], List.drop_left l [x],
   List.take_left l m, List.drop_left l m⟩

/-- C6 counterexample: the empty string consists only of decimal digit
characters (vacuously) and has wrong length, yet both parsers report the
generic format error, not the ShortString-class error. -/
theorem c6_counterexample :
    ([] : List Char).all isDigitCh = true ∧
    ([] : List Char).length ≠ 11 ∧ ([] : List Char).length ≠ 14 ∧
    Cpf.parse_str [] = .error CpfCreationError.InvalidCpfStringFormat ∧
    Cnpj.parse_str [] = .error CnpjCreationError.InvalidCnpjStringFormat := by
  decide

/-- C6 amended: for every NON-EMPTY string of decimal digit characters
whose length is not exactly 11 (resp. 14), `Cpf::parse_str`
(resp. `Cnpj::parse_str`) returns the ShortString-class error, whether the
string is shorter or longer than required. -/
theorem c6_short_string_priority (s : List Char) (hne : s ≠ [])
    (hall : s.all isDigitCh = true) :
    (s.length ≠ 11 → Cpf.parse_str s = .error CpfCreationError.ShortCpfString) ∧
    (s.length ≠ 14 → Cnpj.parse_str s = .error CnpjCreationError.ShortCnpjString) := by
  have hon : onlyNumbers s = true := by
    simp only [onlyNumbers, Bool.and_eq_true, Bool.not_eq_true']
    exact ⟨List.isEmpty_eq_false.mpr hne, hall⟩
  constructor
  · intro hlen
    simp only [Cpf.parse_str]
    rw [if_pos]
    simp [hon, hlen]
  · intro hlen
    simp only [Cnpj.parse_str]
    rw [if_pos]
    simp [hon, hlen]

/-- C6 witness: the all-digit string "123" (length 3). -/
theorem c6_short_string_priority_witness :
    ("123".data ≠ [] ∧ "123".data.all isDigitCh = true ∧
      "123".data.length ≠ 11 ∧ "123".data.length ≠ 14) ∧
    Cpf.parse_str "123".data = .error CpfCreationError.ShortCpfString ∧
    Cnpj.parse_str "123".data = .error CnpjCreationError.ShortCnpjString :=
  ⟨⟨by decide, by decide, by decide, by decide⟩,
   (c6_short_string_priority "123".data (by decide) (by decide)).1 (by decide),
   (c6_short_string_priority "123".data (by decide) (by decide)).2 (by decide)⟩

lemma parse_punctuated_cpf (d0 d1 d2 d3 d4 d5 d6 d7 d8 e0 e1 : Nat)
    (h0 : d0 ≤ 9) (h1 : d1 ≤ 9) (h2 : d2 ≤ 9) (h3 : d3 ≤ 9) (h4 : d4 ≤ 9)
    (h5 : d5 ≤ 9) (h6 : d6 ≤ 9) (h7 : d7 ≤ 9) (h8 : d8 ≤ 9)
    (he0 : e0 ≤ 9) (he1 : e1 ≤ 9) :
    Cpf.parse_str [digitChar d0, digitChar d1, digitChar d2, '.',
      digitChar d3, digitChar d4, digitChar d5, '.',
      digitChar d6, digitChar d7, digitChar d8, '-',
      digitChar e0, digitChar e1] =
    Cpf.new [d0, d1, d2, d3, d4, d5, d6, d7, d8] [e0, e1] := by
  simp [Cpf.parse_str, onlyNumbers, hasMatch, matchesCpfAt, stripNonDigits,
    isDigitCh_digitChar h0, isDigitCh_digitChar h1, isDigitCh_digitChar h2,
    isDigitCh_digitChar h3, isDigitCh_digitChar h4, isDigitCh_digitChar h5,
    isDigitCh_digitChar h6, isDigitCh_digitChar h7, isDigitCh_digitChar h8,
    isDigitCh_digitChar he0, isDigitCh_digitChar he1,
    charToDigit_digitChar h0, charToDigit_digitChar h1, charToDigit_digitChar h2,
    charToDigit_digitChar h3, charToDigit_digitChar h4, charToDigit_digitChar h5,
    charToDigit_digitChar h6, charToDigit_digitChar h7, charToDigit_digitChar h8,
    charToDigit_digitChar he0, charToDigit_digitChar he1,
    (by decide : isDigitCh '.' = false), (by decide : isDigitCh '-' = false),
    List.mapM.loop]

lemma parse_digits_only_cpf (d0 d1 d2 d3 d4 d5 d6 d7 d8 e0 e1 : Nat)
    (h0 : d0 ≤ 9) (h1 : d1 ≤ 9) (h2 : d2 ≤ 9) (h3 : d3 ≤ 9) (h4 : d4 ≤ 9)
    (h5 : d5 ≤ 9) (h6 : d6 ≤ 9) (h7 : d7 ≤ 9) (h8 : d8 ≤ 9)
    (he0 : e0 ≤ 9) (he1 : e1 ≤ 9) :
    Cpf.parse_str [digitChar d0, digitChar d1, digitChar d2, digitChar d3,
      digitChar d4, digitChar d5, digitChar d6, digitChar d7, digitChar d8,
      digitChar e0, digitChar e1] =
    Cpf.new [d0, d1, d2, d3, d4, d5, d6, d7, d8] [e0, e1] := by
  simp [Cpf.parse_str, onlyNumbers, hasMatch, matchesCpfAt, stripNonDigits,
    isDigitCh_digitChar h0, isDigitCh_digitChar h1, isDigitCh_digitChar h2,
    isDigitCh_digitChar h3, isDigitCh_digitChar h4, isDigitCh_digitChar h5,
    isDigitCh_digitChar h6, isDigitCh_digitChar h7, isDigitCh_digitChar h8,
    isDigitCh_digitChar he0, isDigitCh_digitChar he1,
    charToDigit_digitChar h0, charToDigit_digitChar h1, charToDigit_digitChar h2,
    charToDigit_digitChar h3, charToDigit_digitChar h4, charToDigit_digitChar h5,
    charToDigit_digitChar h6, charToDigit_digitChar h7, charToDigit_digitChar h8,
    charToDigit_digitChar he0, charToDigit_digitChar he1,
    List.mapM.loop]

lemma parse_punctuated_cnpj (d0 d1 d2 d3 d4 d5 d6 d7 b0 b1 b2 b3 e0 e1 : Nat)
    (h0 : d0 ≤ 9) (h1 : d1 ≤ 9) (h2 : d2 ≤ 9) (h3 : d3 ≤ 9) (h4 : d4 ≤ 9)
    (h5 : d5 ≤ 9) (h6 : d6 ≤ 9) (h7 : d7 ≤ 9)
    (hb0 : b0 ≤ 9) (hb1 : b1 ≤ 9) (hb2 : b2 ≤ 9) (hb3 : b3 ≤ 9)
    (he0 : e0 ≤ 9) (he1 : e1 ≤ 9) :
    Cnpj.parse_str [digitChar d0, digitChar d1, '.',
      digitChar d2, digitChar d3, digitChar d4, '.',
      digitChar d5, digitChar d6, digitChar d7, '/',
      digitChar b0, digitChar b1, digitChar b2, digitChar b3, '-',
      digitChar e0, digitChar e1] =
    Cnpj.new [d0, d1, d2, d3, d4, d5, d6, d7] [b0, b1, b2, b3] [e0, e1] := by
  simp [Cnpj.parse_str, onlyNumbers, hasMatch, matchesCnpjAt, stripNonDigits,
    isDigitCh_digitChar h0, isDigitCh_digitChar h1, isDigitCh_digitChar h2,
    isDigitCh_digitChar h3, isDigitCh_digitChar h4, isDigitCh_digitChar h5,
    isDigitCh_digitChar h6, isDigitCh_digitChar h7,
    isDigitCh_digitChar hb0, isDigitCh_digitChar hb1, isDigitCh_digitChar hb2,
    isDigitCh_digitChar hb3,
    isDigitCh_digitChar he0, isDigitCh_digitChar he1,
    charToDigit_digitChar h0, charToDigit_digitChar h1, charToDigit_digitChar h2,
    charToDigit_digitChar h3, charToDigit_digitChar h4, charToDigit_digitChar h5,
    charToDigit_digitChar h6, charToDigit_digitChar h7,
    charToDigit_digitChar hb0, charToDigit_digitChar hb1, charToDigit_digitChar hb2,
    charToDigit_digitChar hb3,
    charToDigit_digitChar he0, charToDigit_digitChar he1,
    (by decide : isDigitCh '.' = false), (by decide : isDigitCh '-' = false),
    (by decide : isDigitCh '/' = false),
    List.mapM.loop]

lemma parse_digits_only_cnpj (d0 d1 d2 d3 d4 d5 d6 d7 b0 b1 b2 b3 e0 e1 : Nat)
    (h0 : d0 ≤ 9) (h1 : d1 ≤ 9) (h2 : d2 ≤ 9) (h3 : d3 ≤ 9) (h4 : d4 ≤ 9)
    (h5 : d5 ≤ 9) (h6 : d6 ≤ 9) (h7 : d7 ≤ 9)
    (hb0 : b0 ≤ 9) (hb1 : b1 ≤ 9) (hb2 : b2 ≤ 9) (hb3 : b3 ≤ 9)
    (he0 : e0 ≤ 9) (he1 : e1 ≤ 9) :
    Cnpj.parse_str [digitChar d0, digitChar d1, digitChar d2, digitChar d3,
      digitChar d4, digitChar d5, digitChar d6, digitChar d7,
      digitChar b0, digitChar b1, digitChar b2, digitChar b3,
      digitChar e0, digitChar e1] =
    Cnpj.new [d0, d1, d2, d3, d4, d5, d6, d7] [b0, b1, b2, b3] [e0, e1] := by
  simp [Cnpj.parse_str, onlyNumbers, hasMatch, matchesCnpjAt, stripNonDigits,
    isDigitCh_digitChar h0, isDigitCh_digitChar h1, isDigitCh_digitChar h2,
    isDigitCh_digitChar h3, isDigitCh_digitChar h4, isDigitCh_digitChar h5,
    isDigitCh_digitChar h6, isDigitCh_digitChar h7,
    isDigitCh_digitChar hb0, isDigitCh_digitChar hb1, isDigitCh_digitChar hb2,
    isDigitCh_digitChar hb3,
    isDigitCh_digitChar he0, isDigitCh_digitChar he1,
    charToDigit_digitChar h0, charToDigit_digitChar h1, charToDigit_digitChar h2,
    charToDigit_digitChar h3, charToDigit_digitChar h4, charToDigit_digitChar h5,
    charToDigit_digitChar h6, charToDigit_digitChar h7,
    charToDigit_digitChar hb0, charToDigit_digitChar hb1, charToDigit_digitChar hb2,
    charToDigit_digitChar hb3,
    charToDigit_digitChar he0, charToDigit_digitChar he1,
    List.mapM.loop]

lemma bind_len_eq_some {o : Option (List Nat)} {k : Nat} {v : List Nat}
    (h : (o.bind fun w => if w.length = k then some w else none) = some v) :
    o = some v ∧ v.length = k := by
  rcases o with _ | w
  · simp at h
  · simp only [Option.some_bind] at h
    by_cases hl : w.length = k
    · rw [if_pos hl] at h
      injection h with h
      subst h
      exact ⟨rfl, hl⟩
    · rw [if_neg hl] at h
      exact absurd h (by simp)

lemma cpf_parse_ok_inv {s : List Char} {x : Cpf} (h : Cpf.parse_str s = .ok x) :
    ∃ d v, d.length = 9 ∧ v.length = 2 ∧ Cpf.new d v = .ok x := by
  simp only [Cpf.parse_str] at h
  split at h
  · exact absurd h (by simp)
  · split at h
    · rcases hda : (((stripNonDigits s).take 9).mapM charToDigit).bind
          (fun v => if v.length = 9 then some v else none) with _ | D
      · rw [hda] at h
        exact absurd h (by simp)
      · rcases hva : (((stripNonDigits s).drop 9).mapM charToDigit).bind
            (fun v => if v.length = 2 then some v else none) with _ | V
        · rw [hda, hva] at h
          exact absurd h (by simp)
        · rw [hda, hva] at h
          exact ⟨D, V, (bind_len_eq_some hda).2, (bind_len_eq_some hva).2, h⟩
    · exact absurd h (by simp)

lemma cnpj_parse_ok_inv {s : List Char} {x : Cnpj} (h : Cnpj.parse_str s = .ok x) :
    ∃ d b v, d.length = 8 ∧ b.length = 4 ∧ v.length = 2 ∧ Cnpj.new d b v = .ok x := by
  simp only [Cnpj.parse_str] at h
  split at h
  · exact absurd h (by simp)
  · split at h
    · rcases hda : (((stripNonDigits s).take 8).mapM charToDigit).bind
          (fun v => if v.length = 8 then some v else none) with _ | D
      · rw [hda] at h
        exact absurd h (by simp)
      · rcases hva : (((stripNonDigits s).drop 12).mapM charToDigit).bind
            (fun v => if v.length = 2 then some v else none) with _ | V
        · rw [hda, hva] at h
          exact absurd h (by simp)
        · rcases hba : ((((stripNonDigits s).drop 8).take 4).mapM charToDigit).bind
              (fun v => if v.length = 4 then some v else none) with _ | B
          · rw [hda, hva, hba] at h
            exact absurd h (by simp)
          · rw [hda, hva, hba] at h
            exact ⟨D, B, V, (bind_len_eq_some hda).2, (bind_len_eq_some hba).2,
              (bind_len_eq_some hva).2, h⟩
    · exact absurd h (by simp)

lemma cpf_new_ok_round_trip {d v : List Nat} {x : Cpf} (hd : d.length = 9)
    (hv : v.length = 2) (hok : Cpf.new d v = .ok x) :
    Cpf.parse_str (Cpf.display x) = .ok x ∧
    Cpf.parse_str (Cpf.digitsOnly x) = .ok x := by
  obtain ⟨d0, d1, d2, d3, d4, d5, d6, d7, d8, rfl⟩ := exists_len_nine d hd
  obtain ⟨e0, e1, rfl⟩ := exists_len_two v hv
  rw [cpfNew_eq] at hok
  by_cases hb : (∀ y ∈ [d0, d1, d2, d3, d4, d5, d6, d7, d8], y ≤ 9) ∧
      e0 ≤ 9 ∧ e1 ≤ 9
  swap
  · rw [if_neg hb] at hok
    exact absurd hok (by simp)
  rw [if_pos hb] at hok
  by_cases hcs : cpfCalculateVerifierDigits [d0, d1, d2, d3, d4, d5, d6, d7, d8]
      = (e0, e1)
  swap
  · rw [if_neg hcs] at hok
    exact absurd hok (by simp)
  rw [if_pos hcs] at hok
  have hx := Except.ok.inj hok
  subst hx
  have H0 : d0 ≤ 9 := hb.1 _ (by simp)
  have H1 : d1 ≤ 9 := hb.1 _ (by simp)
  have H2 : d2 ≤ 9 := hb.1 _ (by simp)
  have H3 : d3 ≤ 9 := hb.1 _ (by simp)
  have H4 : d4 ≤ 9 := hb.1 _ (by simp)
  have H5 : d5 ≤ 9 := hb.1 _ (by simp)
  have H6 : d6 ≤ 9 := hb.1 _ (by simp)
  have H7 : d7 ≤ 9 := hb.1 _ (by simp)
  have H8 : d8 ≤ 9 := hb.1 _ (by simp)
  have He0 : e0 ≤ 9 := hb.2.1
  have He1 : e1 ≤ 9 := hb.2.2
  have hdisp : Cpf.display
      { digits := [d0, d1, d2, d3, d4, d5, d6, d7, d8], verifier_digits := [e0, e1] } =
      [digitChar d0, digitChar d1, digitChar d2, '.',
       digitChar d3, digitChar d4, digitChar d5, '.',
       digitChar d6, digitChar d7, digitChar d8, '-',
       digitChar e0, digitChar e1] := by
    simp [Cpf.display, joinToString, toDigits_of_le_nine H0, toDigits_of_le_nine H1,
      toDigits_of_le_nine H2, toDigits_of_le_nine H3, toDigits_of_le_nine H4,
      toDigits_of_le_nine H5, toDigits_of_le_nine H6, toDigits_of_le_nine H7,
      toDigits_of_le_nine H8, toDigits_of_le_nine He0, toDigits_of_le_nine He1]
  have hdig : Cpf.digitsOnly
      { digits := [d0, d1, d2, d3, d4, d5, d6, d7, d8], verifier_digits := [e0, e1] } =
      [digitChar d0, digitChar d1, digitChar d2, digitChar d3, digitChar d4,
       digitChar d5, digitChar d6, digitChar d7, digitChar d8,
       digitChar e0, digitChar e1] := by
    simp [Cpf.digitsOnly, joinToString, toDigits_of_le_nine H0, toDigits_of_le_nine H1,
      toDigits_of_le_nine H2, toDigits_of_le_nine H3, toDigits_of_le_nine H4,
      toDigits_of_le_nine H5, toDigits_of_le_nine H6, toDigits_of_le_nine H7,
      toDigits_of_le_nine H8, toDigits_of_le_nine He0, toDigits_of_le_nine He1]
  constructor
  · rw [hdisp, parse_punctuated_cpf d0 d1 d2 d3 d4 d5 d6 d7 d8 e0 e1
      H0 H1 H2 H3 H4 H5 H6 H7 H8 He0 He1, cpfNew_eq, if_pos hb, if_pos hcs]
  · rw [hdig, parse_digits_only_cpf d0 d1 d2 d3 d4 d5 d6 d7 d8 e0 e1
      H0 H1 H2 H3 H4 H5 H6 H7 H8 He0 He1, cpfNew_eq, if_pos hb, if_pos hcs]

lemma cnpj_new_ok_round_trip {d b v : List Nat} {x : Cnpj} (hd : d.length = 8)
    (hb4 : b.length = 4) (hv : v.length = 2) (hok : Cnpj.new d b v = .ok x) :
    Cnpj.parse_str (Cnpj.display x) = .ok x ∧
    Cnpj.parse_str (Cnpj.digitsOnly x) = .ok x := by
  obtain ⟨d0, d1, d2, d3, d4, d5, d6, d7, rfl⟩ := exists_len_eight d hd
  obtain ⟨b0, b1, b2, b3, rfl⟩ := exists_len_four b hb4
  obtain ⟨e0, e1, rfl⟩ := exists_len_two v hv
  rw [cnpjNew_eq] at hok
  by_cases hb : (∀ y ∈ [d0, d1, d2, d3, d4, d5, d6, d7], y ≤ 9) ∧
      (∀ y ∈ [b0, b1, b2, b3], y ≤ 9) ∧ e0 ≤ 9 ∧ e1 ≤ 9
  swap
  · rw [if_neg hb] at hok
    exact absurd hok (by simp)
  rw [if_pos hb] at hok
  by_cases hcs : cnpjCalculateVerifierDigits [d0, d1, d2, d3, d4, d5, d6, d7]
      [b0, b1, b2, b3] = (e0, e1)
  swap
  · rw [if_neg hcs] at hok
    exact absurd hok (by simp)
  rw [if_pos hcs] at hok
  have hx := Except.ok.inj hok
  subst hx
  have H0 : d0 ≤ 9 := hb.1 _ (by simp)
  have H1 : d1 ≤ 9 := hb.1 _ (by simp)
  have H2 : d2 ≤ 9 := hb.1 _ (by simp)
  have H3 : d3 ≤ 9 := hb.1 _ (by simp)
  have H4 : d4 ≤ 9 := hb.1 _ (by simp)
  have H5 : d5 ≤ 9 := hb.1 _ (by simp)
  have H6 : d6 ≤ 9 := hb.1 _ (by simp)
  have H7 : d7 ≤ 9 := hb.1 _ (by simp)
  have Hb0 : b0 ≤ 9 := hb.2.1 _ (by simp)
  have Hb1 : b1 ≤ 9 := hb.2.1 _ (by simp)
  have Hb2 : b2 ≤ 9 := hb.2.1 _ (by simp)
  have Hb3 : b3 ≤ 9 := hb.2.1 _ (by simp)
  have He0 : e0 ≤ 9 := hb.2.2.1
  have He1 : e1 ≤ 9 := hb.2.2.2
  have hdisp : Cnpj.display
      { digits := [d0, d1, d2, d3, d4, d5, d6, d7], branch_digits := [b0, b1, b2, b3],
        verifier_digits := [e0, e1] } =
      [digitChar d0, digitChar d1, '.',
       digitChar d2, digitChar d3, digitChar d4, '.',
       digitChar d5, digitChar d6, digitChar d7, '/',
       digitChar b0, digitChar b1, digitChar b2, digitChar b3, '-',
       digitChar e0, digitChar e1] := by
    simp [Cnpj.display, joinToString, toDigits_of_le_nine H0, toDigits_of_le_nine H1,
      toDigits_of_le_nine H2, toDigits_of_le_nine H3, toDigits_of_le_nine H4,
      toDigits_of_le_nine H5, toDigits_of_le_nine H6, toDigits_of_le_nine H7,
      toDigits_of_le_nine Hb0, toDigits_of_le_nine Hb1, toDigits_of_le_nine Hb2,
      toDigits_of_le_nine Hb3, toDigits_of_le_nine He0, toDigits_of_le_nine He1]
  have hdig : Cnpj.digitsOnly
      { digits := [d0, d1, d2, d3, d4, d5, d6, d7], branch_digits := [b0, b1, b2, b3],
        verifier_digits := [e0, e1] } =
      [digitChar d0, digitChar d1, digitChar d2, digitChar d3, digitChar d4,
       digitChar d5, digitChar d6, digitChar d7,
       digitChar b0, digitChar b1, digitChar b2, digitChar b3,
       digitChar e0, digitChar e1] := by
    simp [Cnpj.digitsOnly, joinToString, toDigits_of_le_nine H0, toDigits_of_le_nine H1,
      toDigits_of_le_nine H2, toDigits_of_le_nine H3, toDigits_of_le_nine H4,
      toDigits_of_le_nine H5, toDigits_of_le_nine H6, toDigits_of_le_nine H7,
      toDigits_of_le_nine Hb0, toDigits_of_le_nine Hb1, toDigits_of_le_nine Hb2,
      toDigits_of_le_nine Hb3, toDigits_of_le_nine He0, toDigits_of_le_nine He1]
  constructor
  · rw [hdisp, parse_punctuated_cnpj d0 d1 d2 d3 d4 d5 d6 d7 b0 b1 b2 b3 e0 e1
      H0 H1 H2 H3 H4 H5 H6 H7 Hb0 Hb1 Hb2 Hb3 He0 He1, cnpjNew_eq, if_pos hb,
      if_pos hcs]
  · rw [hdig, parse_digits_only_cnpj d0 d1 d2 d3 d4 d5 d6 d7 b0 b1 b2 b3 e0 e1
      H0 H1 H2 H3 H4 H5 H6 H7 Hb0 Hb1 Hb2 Hb3 He0 He1, cnpjNew_eq, if_pos hb,
      if_pos hcs]

/-- C7: round-trip — every successfully constructed `Cpf` (via `new` or
`parse_str`) re-parses to itself from both its punctuated `Display`
rendering and its 11-character digits-only rendering, and likewise for
`Cnpj` with its punctuated and 14-character digits-only renderings. -/
theorem c7_round_trip :
    (∀ d v x, d.length = 9 → v.length = 2 → Cpf.new d v = .ok x →
      Cpf.parse_str (Cpf.display x) = .ok x ∧
      Cpf.parse_str (Cpf.digitsOnly x) = .ok x) ∧
    (∀ s x, Cpf.parse_str s = .ok x →
      Cpf.parse_str (Cpf.display x) = .ok x ∧
      Cpf.parse_str (Cpf.digitsOnly x) = .ok x) ∧
    (∀ d b v x, d.length = 8 → b.length = 4 → v.length = 2 →
      Cnpj.new d b v = .ok x →
      Cnpj.parse_str (Cnpj.display x) = .ok x ∧
      Cnpj.parse_str (Cnpj.digitsOnly x) = .ok x) ∧
    (∀ s x, Cnpj.parse_str s = .ok x →
      Cnpj.parse_str (Cnpj.display x) = .ok x ∧
      Cnpj.parse_str (Cnpj.digitsOnly x) = .ok x) := by
  refine ⟨fun d v x hd hv hok => cpf_new_ok_round_trip hd hv hok,
    fun s x hok => ?_,
    fun d b v x hd hb hv hok => cnpj_new_ok_round_trip hd hb hv hok,
    fun s x hok => ?_⟩
  · obtain ⟨d, v, hd, hv, hok2⟩ := cpf_parse_ok_inv hok
    exact cpf_new_ok_round_trip hd hv hok2
  · obtain ⟨d, b, v, hd, hb, hv, hok2⟩ := cnpj_parse_ok_inv hok
    exact cnpj_new_ok_round_trip hd hb hv hok2

/-- C7 witness: the doctest CPF 261.442.230-45 and CNPJ
53.871.143/0001-35 survive the round-trip from their punctuated
renderings. -/
theorem c7_round_trip_witness :
    (([2,6,1,4,4,2,2,3,0] : List Nat).length = 9 ∧
     ([4,5] : List Nat).length = 2 ∧
     Cpf.new [2,6,1,4,4,2,2,3,0] [4,5] =
       .ok { digits := [2,6,1,4,4,2,2,3,0], verifier_digits := [4,5] } ∧
     ([5,3,8,7,1,1,4,3] : List Nat).length = 8 ∧
     ([0,0,0,1] : List Nat).length = 4 ∧
     Cnpj.new [5,3,8,7,1,1,4,3] [0,0,0,1] [3,5] =
       .ok { digits := [5,3,8,7,1,1,4,3], branch_digits := [0,0,0,1],
             verifier_digits := [3,5] }) ∧
    Cpf.parse_str
        (Cpf.display { digits := [2,6,1,4,4,2,2,3,0], verifier_digits := [4,5] }) =
      .ok { digits := [2,6,1,4,4,2,2,3,0], verifier_digits := [4,5] } ∧
    Cnpj.parse_str
        (Cnpj.display
          { digits := [5,3,8,7,1,1,4,3], branch_digits := [0,0,0,1],
            verifier_digits := [3,5] }) =
      .ok { digits := [5,3,8,7,1,1,4,3], branch_digits := [0,0,0,1],
            verifier_digits := [3,5] } :=
  ⟨⟨rfl, rfl, by decide, rfl, rfl, by decide⟩,
   (c7_round_trip.1 [2,6,1,4,4,2,2,3,0] [4,5] _ rfl rfl (by decide)).1,
   (c7_round_trip.2.2.1 [5,3,8,7,1,1,4,3] [0,0,0,1] [3,5] _ rfl rfl rfl
     (by decide)).1⟩

/-- C10: on a string of exactly 11 (resp. 14) ASCII decimal digit
characters, `Cpf::parse_str` (resp. `Cnpj::parse_str`) returns either Ok or
the InvalidDigits error; the ShortString, InvalidStringFormat,
CouldNotConvertToDigits and DigitsOutOfBounds errors are unreachable. -/
theorem c10_all_digit_strings (s t : List Char)
    (hs11 : s.length = 11) (hsd : ∀ c ∈ s, isDigitCh c = true)
    (ht14 : t.length = 14) (htd : ∀ c ∈ t, isDigitCh c = true) :
    ((∃ x, Cpf.parse_str s = .ok x) ∨
      Cpf.parse_str s = .error CpfCreationError.InvalidCpfDigits) ∧
    ((∃ x, Cnpj.parse_str t = .ok x) ∨
      Cnpj.parse_str t = .error CnpjCreationError.InvalidCnpjDigits) := by
  constructor
  · have hon : onlyNumbers s = true := by
      simp only [onlyNumbers, Bool.and_eq_true, Bool.not_eq_true']
      refine ⟨List.isEmpty_eq_false.mpr ?_, List.all_eq_true.mpr hsd⟩
      intro he
      rw [he] at hs11
      simp at hs11
    have hstrip : stripNonDigits s = s := List.filter_eq_self.mpr hsd
    have hmem : ∀ y ∈ s.map fun c => c.toNat - 48, y ≤ 9 := by
      intro y hy
      obtain ⟨c, hc, rfl⟩ := List.mem_map.mp hy
      exact toNat_sub_le_nine (hsd c hc)
    have hm9 : (s.take 9).mapM charToDigit =
        some ((s.map fun c => c.toNat - 48).take 9) := by
      rw [mapM_charToDigit_eq_some fun c hc => hsd c (List.mem_of_mem_take hc),
        List.map_take]
    have hm2 : (s.drop 9).mapM charToDigit =
        some ((s.map fun c => c.toNat - 48).drop 9) := by
      rw [mapM_charToDigit_eq_some fun c hc => hsd c (List.mem_of_mem_drop hc),
        List.map_drop]
    have hlen9 : ((s.map fun c => c.toNat - 48).take 9).length = 9 := by
      simp [hs11]
    have hlen2 : ((s.map fun c => c.toNat - 48).drop 9).length = 2 := by
      simp [hs11]
    obtain ⟨v0, v1, hv⟩ := exists_len_two _ hlen2
    have hbnd : (∀ y ∈ (s.map fun c => c.toNat - 48).take 9, y ≤ 9) ∧
        v0 ≤ 9 ∧ v1 ≤ 9 := by
      refine ⟨fun y hy => hmem y (List.mem_of_mem_take hy), ?_, ?_⟩
      · exact hmem v0 (List.mem_of_mem_drop (hv ▸ (by simp : v0 ∈ [v0, v1])))
      · exact hmem v1 (List.mem_of_mem_drop (hv ▸ (by simp : v1 ∈ [v0, v1])))
    rw [hv] at hm2
    simp only [Cpf.parse_str, hon, hs11, hstrip, hm9, hm2, Option.some_bind,
      hlen9]
    norm_num
    rw [cpfNew_eq, if_pos hbnd]
    by_cases hcs : cpfCalculateVerifierDigits ((s.map fun c => c.toNat - 48).take 9)
        = (v0, v1)
    · rw [if_pos hcs]
      exact Or.inl ⟨_, rfl⟩
    · rw [if_neg hcs]
      exact Or.inr rfl
  · have hon : onlyNumbers t = true := by
      simp only [onlyNumbers, Bool.and_eq_true, Bool.not_eq_true']
      refine ⟨List.isEmpty_eq_false.mpr ?_, List.all_eq_true.mpr htd⟩
      intro he
      rw [he] at ht14
      simp at ht14
    have hstrip : stripNonDigits t = t := List.filter_eq_self.mpr htd
    have hmem : ∀ y ∈ t.map fun c => c.toNat - 48, y ≤ 9 := by
      intro y hy
      obtain ⟨c, hc, rfl⟩ := List.mem_map.mp hy
      exact toNat_sub_le_nine (htd c hc)
    have hm8 : (t.take 8).mapM charToDigit =
        some ((t.map fun c => c.toNat - 48).take 8) := by
      rw [mapM_charToDigit_eq_some fun c hc => htd c (List.mem_of_mem_take hc),
        List.map_take]
    have hm4 : ((t.drop 8).take 4).mapM charToDigit =
        some (((t.map fun c => c.toNat - 48).drop 8).take 4) := by
      rw [mapM_charToDigit_eq_some fun c hc =>
        htd c (List.mem_of_mem_drop (List.mem_of_mem_take hc)),
        List.map_take, List.map_drop]
    have hm2 : (t.drop 12).mapM charToDigit =
        some ((t.map fun c => c.toNat - 48).drop 12) := by
      rw [mapM_charToDigit_eq_some fun c hc => htd c (List.mem_of_mem_drop hc),
        List.map_drop]
    have hlen8 : ((t.map fun c => c.toNat - 48).take 8).length = 8 := by
      simp [ht14]
    have hlen4 : (((t.map fun c => c.toNat - 48).drop 8).take 4).length = 4 := by
      simp [ht14]
    have hlen2 : ((t.map fun c => c.toNat - 48).drop 12).length = 2 := by
      simp [ht14]
    obtain ⟨v0, v1, hv⟩ := exists_len_two _ hlen2
    have hbnd : (∀ y ∈ (t.map fun c => c.toNat - 48).take 8, y ≤ 9) ∧
        (∀ y ∈ ((t.map fun c => c.toNat - 48).drop 8).take 4, y ≤ 9) ∧
        v0 ≤ 9 ∧ v1 ≤ 9 := by
      refine ⟨fun y hy => hmem y (List.mem_of_mem_take hy),
        fun y hy => hmem y (List.mem_of_mem_drop (List.mem_of_mem_take hy)), ?_, ?_⟩
      · exact hmem v0 (List.mem_of_mem_drop (hv ▸ (by simp : v0 ∈ [v0, v1])))
      · exact hmem v1 (List.mem_of_mem_drop (hv ▸ (by simp : v1 ∈ [v0, v1])))
    rw [hv] at hm2
    simp only [Cnpj.parse_str, hon, ht14, hstrip, hm8, hm4, hm2, Option.some_bind,
      hlen8, hlen4]
    norm_num
    rw [cnpjNew_eq, if_pos hbnd]
    by_cases hcs : cnpjCalculateVerifierDigits
        ((t.map fun c => c.toNat - 48).take 8)
        (((t.map fun c => c.toNat - 48).drop 8).take 4) = (v0, v1)
    · rw [if_pos hcs]
      exact Or.inl ⟨_, rfl⟩
    · rw [if_neg hcs]
      exact Or.inr rfl

/-- C10 witness: the doctest digit strings "12345678909" (a valid CPF) and
"12345678000195" (a valid CNPJ). -/
theorem c10_all_digit_strings_witness :
    ("12345678909".data.length = 11 ∧
      (∀ c ∈ "12345678909".data, isDigitCh c = true) ∧
     "12345678000195".data.length = 14 ∧
      (∀ c ∈ "12345678000195".data, isDigitCh c = true)) ∧
    ((∃ x, Cpf.parse_str "12345678909".data = .ok x) ∨
      Cpf.parse_str "12345678909".data = .error CpfCreationError.InvalidCpfDigits) ∧
    ((∃ x, Cnpj.parse_str "12345678000195".data = .ok x) ∨
      Cnpj.parse_str "12345678000195".data =
        .error CnpjCreationError.InvalidCnpjDigits) :=
  ⟨⟨by decide, by decide, by decide, by decide⟩,
   (c10_all_digit_strings "12345678909".data "12345678000195".data
      (by decide) (by decide) (by decide) (by decide)).1,
   (c10_all_digit_strings "12345678909".data "12345678000195".data
      (by decide) (by decide) (by decide) (by decide)).2⟩

/-- C5 counterexample: "111.111.111-111" has digit-only length 12 (not 11)
and does not match the exact punctuated shape, yet — because the
unanchored pattern matches a substring — `Cpf::parse_str` returns
`CouldNotConvertCpfToDigits`, which is neither the format error nor the
ShortString error. -/
theorem c5_counterexample :
    (stripNonDigits "111.111.111-111".data).length = 12 ∧
    exactCpfShape "111.111.111-111".data = false ∧
    Cpf.parse_str "111.111.111-111".data =
      .error CpfCreationError.CouldNotConvertCpfToDigits ∧
    CpfCreationError.CouldNotConvertCpfToDigits ≠
      CpfCreationError.InvalidCpfStringFormat ∧
    CpfCreationError.CouldNotConvertCpfToDigits ≠
      CpfCreationError.ShortCpfString := by decide

/-- C5 amended: every string whose digit-only length is not 11 (resp. 14)
and which is not exactly the punctuated shape is rejected — with
`ShortCpfString`, `InvalidCpfStringFormat` or (when the punctuated pattern
occurs as a proper substring) `CouldNotConvertCpfToDigits` — and never
parses to Ok; likewise for `Cnpj::parse_str` with its three rejections. -/
theorem c5_malformed_rejected (s t : List Char)
    (hs : (stripNonDigits s).length ≠ 11) (hse : exactCpfShape s = false)
    (ht : (stripNonDigits t).length ≠ 14) (hte : exactCnpjShape t = false) :
    (Cpf.parse_str s = .error CpfCreationError.ShortCpfString ∨
     Cpf.parse_str s = .error CpfCreationError.InvalidCpfStringFormat ∨
     Cpf.parse_str s = .error CpfCreationError.CouldNotConvertCpfToDigits) ∧
    (Cnpj.parse_str t = .error CnpjCreationError.ShortCnpjString ∨
     Cnpj.parse_str t = .error CnpjCreationError.InvalidCnpjStringFormat ∨
     Cnpj.parse_str t = .error CnpjCreationError.CouldNotConvertCnpjToDigits) := by
  simp only [stripNonDigits] at hs ht
  constructor
  · simp only [Cpf.parse_str, stripNonDigits]
    split
    · exact Or.inl rfl
    · split
      · refine Or.inr (Or.inr ?_)
        have hvb : ((((s.filter isDigitCh).drop 9).mapM charToDigit).bind
            fun v => if v.length = 2 then some v else none) = none := by
          rw [mapM_charToDigit_eq_some fun c hc =>
            (List.mem_filter.mp (List.mem_of_mem_drop hc)).2]
          simp only [Option.some_bind, List.length_map, List.length_drop]
          rw [if_neg]
          omega
        rw [hvb]
        rcases hda : ((((s.filter isDigitCh).take 9).mapM charToDigit).bind
            fun v => if v.length = 9 then some v else none) with _ | D
        · rfl
        · rfl
      · exact Or.inr (Or.inl rfl)
  · simp only [Cnpj.parse_str, stripNonDigits]
    split
    · exact Or.inl rfl
    · split
      · refine Or.inr (Or.inr ?_)
        have hvb : ((((t.filter isDigitCh).drop 12).mapM charToDigit).bind
            fun v => if v.length = 2 then some v else none) = none := by
          rw [mapM_charToDigit_eq_some fun c hc =>
            (List.mem_filter.mp (List.mem_of_mem_drop hc)).2]
          simp only [Option.some_bind, List.length_map, List.length_drop]
          rw [if_neg]
          omega
        rw [hvb]
        rcases hda : ((((t.filter isDigitCh).take 8).mapM charToDigit).bind
            fun v => if v.length = 8 then some v else none) with _ | D
        · rfl
        · rfl
      · exact Or.inr (Or.inl rfl)

/-- C5 witness: the counterexample string for the CPF side and the
digit-free string "x" for the CNPJ side. -/
theorem c5_malformed_rejected_witness :
    ((stripNonDigits "111.111.111-111".data).length ≠ 11 ∧
     exactCpfShape "111.111.111-111".data = false ∧
     (stripNonDigits "x".data).length ≠ 14 ∧
     exactCnpjShape "x".data = false) ∧
    (Cpf.parse_str "111.111.111-111".data =
       .error CpfCreationError.ShortCpfString ∨
     Cpf.parse_str "111.111.111-111".data =
       .error CpfCreationError.InvalidCpfStringFormat ∨
     Cpf.parse_str "111.111.111-111".data =
       .error CpfCreationError.CouldNotConvertCpfToDigits) ∧
    (Cnpj.parse_str "x".data = .error CnpjCreationError.ShortCnpjString ∨
     Cnpj.parse_str "x".data = .error CnpjCreationError.InvalidCnpjStringFormat ∨
     Cnpj.parse_str "x".data =
       .error CnpjCreationError.CouldNotConvertCnpjToDigits) :=
  ⟨⟨by decide, by decide, by decide, by decide⟩,
   (c5_malformed_rejected "111.111.111-111".data "x".data
      (by decide) (by decide) (by decide) (by decide)).1,
   (c5_malformed_rejected "111.111.111-111".data "x".data
      (by decide) (by decide) (by decide) (by decide)).2⟩

end Validbr
